import Mathlib

/-!
Verification of the Mixor CLI extraction pipeline (src/Python/mixor_cli.py).

The pipeline is embedded shallowly: every external, nondeterministic event
(the torch import, directory creation, the downloader, the separation
subprocess, file-existence probes) is a field of an environment record, and
each entry point (`process_youtube`, `process_local_file`, `main`) becomes a
pure function from that environment to a `RunOutput`: the list of JSON lines
written to standard output, the exit status, the directories created under
the output root, and the files moved into the two destination folders.
-/

namespace Mixor

/-- One line written to standard output: either a progress update
emitted by `emit_progress` or a terminal result emitted by `emit_result`
(mixor_cli.py lines 18-35). Durations are modelled as rationals. -/
inductive OutLine where
  | progress (progress : ℚ) (status : String) (step : String)
  | result (success : Bool) (instrumentalPath : Option String)
      (vocalsPath : Option String) (title : Option String)
      (duration : Option ℚ) (error : Option String)
  deriving DecidableEq

/-- `emit_progress(progress, status, step)`: one progress JSON line. -/
def emitProgress (progress : ℚ) (status step : String) : OutLine :=
  OutLine.progress progress status step

/-- `emit_result(success, instrumental_path, vocals_path, title, duration,
error)`: one result JSON line; every keyword argument defaults to None in the
source, so callers that omit a field pass `none` here. -/
def emitResult (success : Bool) (instrumental_path vocals_path title : Option String)
    (duration : Option ℚ) (error : Option String) : OutLine :=
  OutLine.result success instrumental_path vocals_path title duration error

/-- How the process ends: `normal` is a plain return from `main` (exit
status 0); `uncaught` is an exception that propagates out of the entry
function, terminating the interpreter abnormally. -/
inductive ExitStatus where
  | normal
  | uncaught (msg : String)
  deriving DecidableEq

/-- Observable outcome of one invocation: standard-output lines in order,
exit status, directories created under the output root, and the destination
paths of files moved into `Instrumentals/` and `Acapellas/`. -/
structure RunOutput where
  lines : List OutLine
  exit : ExitStatus
  createdDirs : List String
  instrumentalMoves : List String
  acapellaMoves : List String
  deriving DecidableEq

/-- Device selection (mixor_cli.py lines 71-77 and 208-214):
`"cuda"` if `torch.cuda.is_available()`, else `"mps"` if
`torch.backends.mps.is_available()`, else `"cpu"`. -/
def selectDevice (cudaAvailable mpsAvailable : Bool) : String :=
  if cudaAvailable then "cuda"
  else if mpsAvailable then "mps"
  else "cpu"

/-- Python `str.isalnum` restricted to ASCII: letters and digits. -/
def pyIsAlnum (c : Char) : Bool := c.isAlpha || c.isDigit

/-- The character filter of the title cleanup (line 115):
`c.isalnum() or c in (' ', '-', '_')`. -/
def keepTitleChar (c : Char) : Bool :=
  pyIsAlnum c || c == ' ' || c == '-' || c == '_'

/-- Python `str.rstrip()` on a character list: drop trailing whitespace. -/
def rstripChars (cs : List Char) : List Char :=
  (cs.reverse.dropWhile Char.isWhitespace).reverse

/-- Title sanitization (line 115):
`"".join(c for c in title if c.isalnum() or c in (' ', '-', '_')).rstrip()`. -/
def sanitizeTitle (s : String) : String :=
  (rstripChars (s.toList.filter keepTitleChar)).asString

/-- Final component of a path: the characters after the last `/`. -/
def baseNameChars (cs : List Char) : List Char :=
  (cs.reverse.takeWhile (fun c => c != '/')).reverse

/-- `pathlib.PurePath.stem` on a file name: the name without its last
suffix; a dot at position 0 or at the very end does not start a suffix. -/
def stemOfName (name : List Char) : List Char :=
  let rev := name.reverse
  let sufRev := rev.takeWhile (fun c => c != '.')
  match rev.dropWhile (fun c => c != '.') with
  | [] => name
  | _ :: stemRev =>
      if stemRev.isEmpty || sufRev.isEmpty then name else stemRev.reverse

/-- `Path(p).stem`: stem of the final path component. -/
def pathStem (p : String) : String :=
  (stemOfName (baseNameChars p.toList)).asString

/-- The fixed probe list of the ffmpeg search (line 88):
`['/opt/homebrew/bin', '/usr/local/bin']`. -/
def ffmpegProbePaths : List String := ["/opt/homebrew/bin", "/usr/local/bin"]

/-- The ffmpeg search loop (lines 86-91): on darwin, the first probe path
`path` with `os.path.exists(os.path.join(path, 'ffmpeg'))`, else `None`;
on other platforms the variable stays `None`. -/
def findFfmpegLocation (platformDarwin : Bool) (ffmpegPresentAt : String → Bool) :
    Option String :=
  if platformDarwin then ffmpegProbePaths.find? ffmpegPresentAt
  else none

/-- The downloader options dictionary `ydl_opts` (lines 94-107). -/
structure YdlOpts where
  format : String
  preferredcodec : String
  preferredquality : String
  outtmpl : String
  quiet : Bool
  no_warnings : Bool
  extractaudio : Bool
  noplaylist : Bool
  ffmpeg_location : String
  deriving DecidableEq

/-- Construction of `ydl_opts` (lines 94-107). Note that the
`ffmpeg_location` entry is the literal `'/opt/homebrew/bin'` in the source;
the value computed by the probe loop above is never read. -/
def buildYdlOpts (tempDir : String) : YdlOpts :=
  { format := "bestaudio/best"
    preferredcodec := "mp3"
    preferredquality := "192"
    outtmpl := tempDir ++ "/%(title)s.%(ext)s"
    quiet := false
    no_warnings := false
    extractaudio := true
    noplaylist := true
    ffmpeg_location := "/opt/homebrew/bin" }

/-- Destination path `instrumentals_dir / f"{output_name}.mp3"`
(lines 166 and 260). -/
def instrumentalDest (outputDir outputName : String) : String :=
  outputDir ++ "/Instrumentals" ++ "/" ++ outputName ++ ".mp3"

/-- Destination path `acapellas_dir / f"{output_name}.mp3"`
(lines 167 and 261). -/
def acapellaDest (outputDir outputName : String) : String :=
  outputDir ++ "/Acapellas" ++ "/" ++ outputName ++ ".mp3"

/-- Environment of one `process_youtube` run: every external outcome the
control flow of lines 51-187 can observe. -/
structure UrlEnv where
  /-- `import torch` (line 57) succeeds. -/
  torchOk : Bool
  /-- Message of the import error when it does not. -/
  torchErr : String
  /-- The four `mkdir` calls (lines 59-69) succeed. -/
  mkdirOk : Bool
  /-- Message of the OS error when they do not. -/
  mkdirErr : String
  /-- `torch.cuda.is_available()` (line 72). -/
  cudaAvailable : Bool
  /-- `torch.backends.mps.is_available()` (line 74). -/
  mpsAvailable : Bool
  /-- The `yt_dlp` import and `extract_info` call (lines 83-112) return
  without raising. -/
  downloadOk : Bool
  /-- `str(e)` of the exception raised when they do not. -/
  downloadErr : String
  /-- `info.get('title')` (line 111); `none` models an absent key. -/
  infoTitle : Option String
  /-- `info.get('duration')` (line 112). -/
  infoDuration : Option ℚ
  /-- Name of the first `*.mp3` file `glob` yields in `temp/`
  (lines 118-122); `none` when the glob is empty. -/
  firstTempMp3 : Option String
  /-- `result.returncode` of the demucs subprocess (line 147). -/
  demucsReturncode : Int
  /-- `result.stderr` of the demucs subprocess. -/
  demucsStderr : String
  /-- `instrumental_file.exists()` after the subprocess (line 161). -/
  instrumentalExists : Bool
  /-- `vocals_file.exists()` after the subprocess (line 170). -/
  vocalsExists : Bool
  deriving DecidableEq

/-- `process_youtube(url, output_dir)` (lines 51-187). `import torch`, the
directory creation and the device probe run before the `try` block; the
`except Exception` handler at line 186 only covers the body of the `try`. -/
def processYoutube (env : UrlEnv) (outputDir : String) : RunOutput :=
  if !env.torchOk then
    { lines := [], exit := ExitStatus.uncaught env.torchErr,
      createdDirs := [], instrumentalMoves := [], acapellaMoves := [] }
  else if !env.mkdirOk then
    { lines := [], exit := ExitStatus.uncaught env.mkdirErr,
      createdDirs := [], instrumentalMoves := [], acapellaMoves := [] }
  else
    let tempDir := outputDir ++ "/temp"
    let instrumentalsDir := outputDir ++ "/Instrumentals"
    let acapellasDir := outputDir ++ "/Acapellas"
    let created := [outputDir, tempDir, instrumentalsDir, acapellasDir]
    let _device := selectDevice env.cudaAvailable env.mpsAvailable
    -- try block (lines 79-184)
    let p1 := emitProgress (1/10) "Downloading audio..." "download"
    if !env.downloadOk then
      -- exception caught at line 186: emit_result(False, error=str(e))
      { lines := [p1, emitResult false none none none none (some env.downloadErr)],
        exit := ExitStatus.normal, createdDirs := created,
        instrumentalMoves := [], acapellaMoves := [] }
    else
      let title := env.infoTitle.getD "Unknown"
      let safeTitle := sanitizeTitle title
      match env.firstTempMp3 with
      | none =>
          { lines := [p1, emitResult false none none none none
                (some "Download failed - audio file not found")],
            exit := ExitStatus.normal, createdDirs := created,
            instrumentalMoves := [], acapellaMoves := [] }
      | some audioFileName =>
          let p2 := emitProgress (3/10) "Processing with Demucs..." "demucs"
          if env.demucsReturncode ≠ 0 then
            { lines := [p1, p2, emitResult false none none none none
                  (some ("Demucs error: " ++ env.demucsStderr))],
              exit := ExitStatus.normal, createdDirs := created,
              instrumentalMoves := [], acapellaMoves := [] }
          else
            let p3 := emitProgress (9/10) "Finalizing..." "finalize"
            let outputName := pathStem audioFileName
            if !env.instrumentalExists then
              { lines := [p1, p2, p3, emitResult false none none none none
                    (some "Processing failed - output file not found")],
                exit := ExitStatus.normal, createdDirs := created,
                instrumentalMoves := [], acapellaMoves := [] }
            else
              let finalInstrumental := instrumentalDest outputDir outputName
              let finalAcapella := acapellaDest outputDir outputName
              { lines := [p1, p2, p3, emitProgress 1 "Complete!" "done",
                  emitResult true (some finalInstrumental) (some finalAcapella)
                    (some safeTitle) env.infoDuration none],
                exit := ExitStatus.normal, createdDirs := created,
                instrumentalMoves := [finalInstrumental],
                acapellaMoves := if env.vocalsExists then [finalAcapella] else [] }

/-- Environment of one `process_local_file` run (lines 190-280). -/
structure FileEnv where
  /-- `import torch` (line 192) succeeds. -/
  torchOk : Bool
  /-- Message of the import error when it does not. -/
  torchErr : String
  /-- `input_file.exists()` (line 195). -/
  inputExists : Bool
  /-- The three `mkdir` calls (lines 199-206) succeed. -/
  mkdirOk : Bool
  /-- Message of the OS error when they do not. -/
  mkdirErr : String
  /-- `torch.cuda.is_available()` (line 209). -/
  cudaAvailable : Bool
  /-- `torch.backends.mps.is_available()` (line 211). -/
  mpsAvailable : Bool
  /-- `get_audio_duration(input_file)` (line 220): duration in seconds, or
  `none` on any probe failure — the helper never raises (lines 38-48). -/
  ffprobeDuration : Option ℚ
  /-- `result.returncode` of the demucs subprocess (line 241). -/
  demucsReturncode : Int
  /-- `result.stderr` of the demucs subprocess. -/
  demucsStderr : String
  /-- `instrumental_file.exists()` after the subprocess (line 255). -/
  instrumentalExists : Bool
  /-- `vocals_file.exists()` after the subprocess (line 264). -/
  vocalsExists : Bool
  deriving DecidableEq

/-- `process_local_file(file_path, output_dir)` (lines 190-280). The torch
import, the existence check on the input, the directory creation and the
device probe run before the `try` block at line 216. -/
def processLocalFile (env : FileEnv) (filePath outputDir : String) : RunOutput :=
  if !env.torchOk then
    { lines := [], exit := ExitStatus.uncaught env.torchErr,
      createdDirs := [], instrumentalMoves := [], acapellaMoves := [] }
  else if !env.inputExists then
    { lines := [emitResult false none none none none
          (some ("File not found: " ++ filePath))],
      exit := ExitStatus.normal, createdDirs := [],
      instrumentalMoves := [], acapellaMoves := [] }
  else if !env.mkdirOk then
    { lines := [], exit := ExitStatus.uncaught env.mkdirErr,
      createdDirs := [], instrumentalMoves := [], acapellaMoves := [] }
  else
    let instrumentalsDir := outputDir ++ "/Instrumentals"
    let acapellasDir := outputDir ++ "/Acapellas"
    let created := [outputDir, instrumentalsDir, acapellasDir]
    let _device := selectDevice env.cudaAvailable env.mpsAvailable
    -- try block (lines 216-277)
    let p1 := emitProgress (1/10) "Preparing audio..." "prepare"
    let title := pathStem filePath
    let p2 := emitProgress (2/10) "Processing with Demucs..." "demucs"
    if env.demucsReturncode ≠ 0 then
      { lines := [p1, p2, emitResult false none none none none
            (some ("Demucs error: " ++ env.demucsStderr))],
        exit := ExitStatus.normal, createdDirs := created,
        instrumentalMoves := [], acapellaMoves := [] }
    else
      let p3 := emitProgress (9/10) "Finalizing..." "finalize"
      let outputName := pathStem filePath
      if !env.instrumentalExists then
        { lines := [p1, p2, p3, emitResult false none none none none
              (some "Processing failed - output file not found")],
          exit := ExitStatus.normal, createdDirs := created,
          instrumentalMoves := [], acapellaMoves := [] }
      else
        let finalInstrumental := instrumentalDest outputDir outputName
        let finalAcapella := acapellaDest outputDir outputName
        { lines := [p1, p2, p3, emitProgress 1 "Complete!" "done",
            emitResult true (some finalInstrumental) (some finalAcapella)
              (some title) env.ffprobeDuration none],
          exit := ExitStatus.normal, createdDirs := created,
          instrumentalMoves := [finalInstrumental],
          acapellaMoves := if env.vocalsExists then [finalAcapella] else [] }

/-- The two valid positional commands (line 285). -/
inductive Command where
  | extract_url
  | extract_file
  deriving DecidableEq

/-- `main()` after successful argument parsing (lines 283-302): dispatch on
the command, with the missing-argument guards of lines 293-295 and 299-301. -/
def mainRun (cmd : Command) (url file : Option String) (output : String)
    (uenv : UrlEnv) (fenv : FileEnv) : RunOutput :=
  match cmd with
  | Command.extract_url =>
      match url with
      | none =>
          { lines := [emitResult false none none none none (some "URL is required")],
            exit := ExitStatus.normal, createdDirs := [],
            instrumentalMoves := [], acapellaMoves := [] }
      | some _ => processYoutube uenv output
  | Command.extract_file =>
      match file with
      | none =>
          { lines := [emitResult false none none none none (some "File path is required")],
            exit := ExitStatus.normal, createdDirs := [],
            instrumentalMoves := [], acapellaMoves := [] }
      | some f => processLocalFile fenv f output

/-- Whether a standard-output line is a terminal result line. -/
def OutLine.isResultLine : OutLine → Bool
  | OutLine.result _ _ _ _ _ _ => true
  | OutLine.progress _ _ _ => false

/-- The progress value a line carries, when it is a progress line. -/
def OutLine.progressValue : OutLine → Option ℚ
  | OutLine.progress p _ _ => some p
  | OutLine.result _ _ _ _ _ _ => none

/-- The progress values of a run, in emission order. -/
def progressValues (ls : List OutLine) : List ℚ :=
  ls.filterMap OutLine.progressValue

/-- The result lines of a run, in emission order. -/
def resultLines (ls : List OutLine) : List OutLine :=
  ls.filter OutLine.isResultLine

/-! ### Sample environments used by witnesses and counterexamples -/

/-- A URL-mode run in which every external step succeeds. -/
def happyUrlEnv : UrlEnv :=
  { torchOk := true, torchErr := "", mkdirOk := true, mkdirErr := "",
    cudaAvailable := false, mpsAvailable := true, downloadOk := true,
    downloadErr := "", infoTitle := some "My Song", infoDuration := some 212,
    firstTempMp3 := some "My Song.mp3", demucsReturncode := 0,
    demucsStderr := "", instrumentalExists := true, vocalsExists := true }

/-- A file-mode run in which every external step succeeds. -/
def happyFileEnv : FileEnv :=
  { torchOk := true, torchErr := "", inputExists := true, mkdirOk := true,
    mkdirErr := "", cudaAvailable := false, mpsAvailable := false,
    ffprobeDuration := some 180, demucsReturncode := 0, demucsStderr := "",
    instrumentalExists := true, vocalsExists := true }

/-- A URL-mode run in which `import torch` raises. -/
def noTorchUrlEnv : UrlEnv :=
  { happyUrlEnv with torchOk := false, torchErr := "No module named torch" }

/-- A URL-mode run in which the demucs subprocess exits 1. -/
def demucsFailUrlEnv : UrlEnv :=
  { happyUrlEnv with demucsReturncode := 1, demucsStderr := "CUDA OOM" }

/-- A file-mode run in which the demucs subprocess exits 1. -/
def demucsFailFileEnv : FileEnv :=
  { happyFileEnv with demucsReturncode := 1, demucsStderr := "CUDA OOM" }

/-- A file-mode run in which the separator wrote the instrumental but not
the vocals file. -/
def vocalsAbsentFileEnv : FileEnv :=
  { happyFileEnv with vocalsExists := false }

/-- A file-mode run whose input path does not exist. -/
def missingInputFileEnv : FileEnv :=
  { happyFileEnv with inputExists := false }

/-- An ffmpeg probe in which only `/usr/local/bin` holds the tool. -/
def usrLocalOnlyProbe : String → Bool := fun p => p == "/usr/local/bin"

/-! ### Helper lemmas -/

lemma dropWhile_dropWhile_same (p : Char → Bool) (l : List Char) :
    (l.dropWhile p).dropWhile p = l.dropWhile p := by
  induction l with
  | nil => rfl
  | cons a t ih =>
    by_cases h : p a = true
    · simpa [List.dropWhile_cons, h] using ih
    · simp [List.dropWhile_cons, h]

lemma mem_rstripChars {a : Char} {l : List Char} (h : a ∈ rstripChars l) :
    a ∈ l := by
  unfold rstripChars at h
  rw [List.mem_reverse] at h
  have hm := (List.dropWhile_sublist (l := l.reverse) Char.isWhitespace).mem h
  rwa [List.mem_reverse] at hm

lemma rstripChars_idem (l : List Char) :
    rstripChars (rstripChars l) = rstripChars l := by
  unfold rstripChars
  rw [List.reverse_reverse, dropWhile_dropWhile_same]

lemma filter_rstripChars_filter (p : Char → Bool) (l : List Char) :
    (rstripChars (l.filter p)).filter p = rstripChars (l.filter p) := by
  apply List.filter_eq_self.mpr
  intro a ha
  exact (List.mem_filter.mp (mem_rstripChars ha)).2

/-- Every URL-mode run has non-decreasing progress values inside `[0, 1]`. -/
lemma processYoutube_progress (e : UrlEnv) (o : String) :
    List.Chain' (· ≤ ·) (progressValues (processYoutube e o).lines) ∧
    ∀ p ∈ progressValues (processYoutube e o).lines, 0 ≤ p ∧ p ≤ 1 := by
  rcases e with ⟨t, te, m, me, c, mp, dok, derr, it, idur, ftm, rc, ds, iex, vex⟩
  cases t <;> cases m <;> cases dok <;> rcases ftm with _ | name <;>
    by_cases hrc : rc = 0 <;> cases iex <;> cases vex <;>
    norm_num [processYoutube, hrc, progressValues, emitResult, emitProgress,
      OutLine.progressValue, List.filterMap_cons, List.Chain']

/-- Every file-mode run has non-decreasing progress values inside `[0, 1]`. -/
lemma processLocalFile_progress (e : FileEnv) (fp o : String) :
    List.Chain' (· ≤ ·) (progressValues (processLocalFile e fp o).lines) ∧
    ∀ p ∈ progressValues (processLocalFile e fp o).lines, 0 ≤ p ∧ p ≤ 1 := by
  rcases e with ⟨t, te, ie, m, me, c, mp, d, rc, ds, iex, vex⟩
  cases t <;> cases ie <;> cases m <;> by_cases hrc : rc = 0 <;>
    cases iex <;> cases vex <;>
    norm_num [processLocalFile, hrc, progressValues, emitResult, emitProgress,
      OutLine.progressValue, List.filterMap_cons, List.Chain']

/-- Once the pre-`try` setup of `process_youtube` succeeds, the run exits
normally and emits exactly one result line, in terminal position. -/
lemma processYoutube_result_shape (env : UrlEnv) (out : String)
    (h1 : env.torchOk = true) (h2 : env.mkdirOk = true) :
    (processYoutube env out).exit = ExitStatus.normal ∧
    (resultLines (processYoutube env out).lines).length = 1 ∧
    ∃ r, (processYoutube env out).lines.getLast? = some r ∧
      r.isResultLine = true := by
  rcases env with ⟨t, te, m, me, c, mp, dok, derr, it, idur, ftm, rc, ds, iex, vex⟩
  simp only at h1 h2
  subst h1; subst h2
  cases dok <;> rcases ftm with _ | name <;> by_cases hrc : rc = 0 <;>
    cases iex <;> cases vex <;>
    simp [processYoutube, hrc, resultLines, emitResult, emitProgress,
      OutLine.isResultLine, List.filter]

/-- Once the torch import of `process_local_file` succeeds (and, when the
input file exists, directory creation as well), the run exits normally and
emits exactly one result line, in terminal position. -/
lemma processLocalFile_result_shape (env : FileEnv) (f out : String)
    (h1 : env.torchOk = true) (h2 : env.mkdirOk = true) :
    (processLocalFile env f out).exit = ExitStatus.normal ∧
    (resultLines (processLocalFile env f out).lines).length = 1 ∧
    ∃ r, (processLocalFile env f out).lines.getLast? = some r ∧
      r.isResultLine = true := by
  rcases env with ⟨t, te, ie, m, me, c, mp, d, rc, ds, iex, vex⟩
  simp only at h1 h2
  subst h1; subst h2
  cases ie <;> by_cases hrc : rc = 0 <;> cases iex <;> cases vex <;>
    simp [processLocalFile, hrc, resultLines, emitResult, emitProgress,
      OutLine.isResultLine, List.filter]

/-! ### Claims -/

/-- Claim C8: title sanitization (keep alphanumerics, spaces, hyphens,
underscores; trim trailing whitespace) is idempotent — sanitizing an
already-sanitized string yields it unchanged. -/
theorem sanitizeTitle_idempotent (s : String) :
    sanitizeTitle (sanitizeTitle s) = sanitizeTitle s := by
  unfold sanitizeTitle
  have h : (List.asString (rstripChars (s.toList.filter keepTitleChar))).toList
      = rstripChars (s.toList.filter keepTitleChar) := rfl
  rw [h, filter_rstripChars_filter, rstripChars_idem]

/-- Claim C9: the device selector always returns exactly one of `"cuda"`,
`"mps"`, `"cpu"`, by fixed priority: `"cuda"` when the primary accelerator
is available, otherwise `"mps"` when the secondary one is, otherwise
`"cpu"`; it is a total pure function, so it has no side effects and no
failure path. -/
theorem selectDevice_total_priority (c m : Bool) :
    (selectDevice c m = "cuda" ∨ selectDevice c m = "mps" ∨
      selectDevice c m = "cpu") ∧
    (selectDevice c m = "cuda" ↔ c = true) ∧
    (selectDevice c m = "mps" ↔ (c = false ∧ m = true)) ∧
    (selectDevice c m = "cpu" ↔ (c = false ∧ m = false)) := by
  cases c <;> cases m <;> decide

/-- Claim C4: in file mode, when the supplied `--file` path does not exist,
the whole output is a single failure result whose error string is exactly
`"File not found: "` followed by the supplied path, with zero progress
lines emitted before it. -/
theorem missing_file_single_failure (env : FileEnv) (f out : String)
    (h1 : env.torchOk = true) (h2 : env.inputExists = false) :
    (processLocalFile env f out).lines =
      [emitResult false none none none none
        (some ("File not found: " ++ f))] ∧
    progressValues (processLocalFile env f out).lines = [] := by
  rcases env with ⟨t, te, ie, m, me, c, mp, d, rc, ds, iex, vex⟩
  simp only at h1 h2
  subst h1; subst h2
  simp [processLocalFile, progressValues, emitResult, OutLine.progressValue,
    List.filterMap_cons]

/-- Witness for C4: a concrete run with a nonexistent input path emits the
single `"File not found: ..."` result and no progress line. -/
theorem missing_file_single_failure_witness :
    missingInputFileEnv.torchOk = true ∧
    missingInputFileEnv.inputExists = false ∧
    ((processLocalFile missingInputFileEnv "/in/absent.wav" "/out").lines =
      [emitResult false none none none none
        (some ("File not found: " ++ "/in/absent.wav"))] ∧
    progressValues
      (processLocalFile missingInputFileEnv "/in/absent.wav" "/out").lines = []) :=
  ⟨rfl, rfl,
    missing_file_single_failure missingInputFileEnv "/in/absent.wav" "/out" rfl rfl⟩

/-- Counterexample to claim C2 as stated: in a file-mode run where the
separator exits 0, writes the instrumental and the vocals file is absent,
the emitted result does carry `success = true`, but its `vocalsPath` field
is the would-be acapella destination path, not `null` — `emit_result` at
lines 271-277 passes `str(final_acapella)` unconditionally. -/
theorem vocals_absent_vocalsPath_not_null :
    (processLocalFile vocalsAbsentFileEnv "/in/song.wav" "/out").lines.getLast? =
      some (OutLine.result true (some "/out/Instrumentals/song.mp3")
        (some "/out/Acapellas/song.mp3") (some "song") (some 180) none) := by
  decide

/-- Claim C2 (amended): in file mode, when the separator exits 0, the
instrumental file exists and the vocals file is absent, the job still
succeeds — the terminal result has `success = true` — but `vocalsPath` is
the acapella destination path (where no file was moved: `acapellaMoves` is
empty) rather than `null`. -/
theorem vocals_absent_still_success (env : FileEnv) (f out : String)
    (h1 : env.torchOk = true) (h2 : env.inputExists = true)
    (h3 : env.mkdirOk = true) (h4 : env.demucsReturncode = 0)
    (h5 : env.instrumentalExists = true) (h6 : env.vocalsExists = false) :
    (processLocalFile env f out).lines.getLast? =
      some (OutLine.result true (some (instrumentalDest out (pathStem f)))
        (some (acapellaDest out (pathStem f)))
        (some (pathStem f)) env.ffprobeDuration none) ∧
    (processLocalFile env f out).acapellaMoves = [] := by
  rcases env with ⟨t, te, ie, m, me, c, mp, d, rc, ds, iex, vex⟩
  simp only at h1 h2 h3 h4 h5 h6
  subst h1; subst h2; subst h3; subst h4; subst h5; subst h6
  simp [processLocalFile, emitResult, emitProgress]

/-- Witness for the amended C2 at a concrete vocals-absent run. -/
theorem vocals_absent_still_success_witness :
    vocalsAbsentFileEnv.torchOk = true ∧
    vocalsAbsentFileEnv.inputExists = true ∧
    vocalsAbsentFileEnv.mkdirOk = true ∧
    vocalsAbsentFileEnv.demucsReturncode = 0 ∧
    vocalsAbsentFileEnv.instrumentalExists = true ∧
    vocalsAbsentFileEnv.vocalsExists = false ∧
    ((processLocalFile vocalsAbsentFileEnv "/in/song.wav" "/out").lines.getLast? =
      some (OutLine.result true
        (some (instrumentalDest "/out" (pathStem "/in/song.wav")))
        (some (acapellaDest "/out" (pathStem "/in/song.wav")))
        (some (pathStem "/in/song.wav")) vocalsAbsentFileEnv.ffprobeDuration none) ∧
    (processLocalFile vocalsAbsentFileEnv "/in/song.wav" "/out").acapellaMoves = []) :=
  ⟨rfl, rfl, rfl, rfl, rfl, rfl,
    vocals_absent_still_success vocalsAbsentFileEnv "/in/song.wav" "/out"
      rfl rfl rfl rfl rfl rfl⟩

/-- Counterexample to claim C5 as stated: with ffmpeg present only at
`/usr/local/bin`, the probe loop finds `/usr/local/bin`, yet the options
dictionary handed to the downloader carries the hard-coded
`/opt/homebrew/bin` (line 106) — the probed value is never passed on. -/
theorem ffmpeg_probe_result_not_passed :
    findFfmpegLocation true usrLocalOnlyProbe = some "/usr/local/bin" ∧
    (buildYdlOpts "/out/temp").ffmpeg_location = "/opt/homebrew/bin" ∧
    (buildYdlOpts "/out/temp").ffmpeg_location ≠ "/usr/local/bin" := by
  decide

/-- Claim C5 (amended): the acquisition stage probes the fixed path list
`['/opt/homebrew/bin', '/usr/local/bin']` in order and computes the first
path holding ffmpeg (`none` when no probe hits, or off darwin), but the
options passed to the downloader always carry the constant
`'/opt/homebrew/bin'`, regardless of the probe's outcome. -/
theorem ffmpeg_probe_order_and_constant_option (present : String → Bool)
    (tempDir : String) (h1 : present "/opt/homebrew/bin" = false)
    (h2 : present "/usr/local/bin" = true) :
    findFfmpegLocation true present = some "/usr/local/bin" ∧
    (∀ q : String → Bool, q "/opt/homebrew/bin" = true →
      findFfmpegLocation true q = some "/opt/homebrew/bin") ∧
    (∀ q : String → Bool, q "/opt/homebrew/bin" = false →
      q "/usr/local/bin" = false → findFfmpegLocation true q = none) ∧
    findFfmpegLocation false present = none ∧
    (buildYdlOpts tempDir).ffmpeg_location = "/opt/homebrew/bin" := by
  refine ⟨?_, ?_, ?_, rfl, rfl⟩
  · simp [findFfmpegLocation, ffmpegProbePaths, List.find?_cons, h1, h2]
  · intro q hq
    simp [findFfmpegLocation, ffmpegProbePaths, List.find?_cons, hq]
  · intro q hq1 hq2
    simp [findFfmpegLocation, ffmpegProbePaths, List.find?_cons, hq1, hq2]

/-- Witness for the amended C5 at the concrete probe that hits only
`/usr/local/bin`. -/
theorem ffmpeg_probe_order_witness :
    usrLocalOnlyProbe "/opt/homebrew/bin" = false ∧
    usrLocalOnlyProbe "/usr/local/bin" = true ∧
    (findFfmpegLocation true usrLocalOnlyProbe = some "/usr/local/bin" ∧
    (∀ q : String → Bool, q "/opt/homebrew/bin" = true →
      findFfmpegLocation true q = some "/opt/homebrew/bin") ∧
    (∀ q : String → Bool, q "/opt/homebrew/bin" = false →
      q "/usr/local/bin" = false → findFfmpegLocation true q = none) ∧
    findFfmpegLocation false usrLocalOnlyProbe = none ∧
    (buildYdlOpts "/out/temp").ffmpeg_location = "/opt/homebrew/bin") :=
  ⟨rfl, rfl,
    ffmpeg_probe_order_and_constant_option usrLocalOnlyProbe "/out/temp" rfl rfl⟩

/-- Counterexample to claim C1 as stated: `import torch` (line 57) runs
before the `try` block of `process_youtube`, so on a host where the import
raises, a job with a valid command and URL terminates abnormally with the
uncaught exception and emits no result line at all. -/
theorem pipeline_uncaught_counterexample :
    (mainRun Command.extract_url (some "https://youtu.be/x") none "/out"
        noTorchUrlEnv happyFileEnv).exit =
      ExitStatus.uncaught "No module named torch" ∧
    (mainRun Command.extract_url (some "https://youtu.be/x") none "/out"
        noTorchUrlEnv happyFileEnv).lines = [] := by
  decide

/-- Claim C1 (amended): for every job with a valid command whose pre-`try`
setup succeeds (the torch import and the output-directory creation), the
process exits normally with status 0, emits exactly one terminal result
line, and that result is the last line of standard output; every exception
raised inside the pipeline's `try` block is caught and converted into a
single failure result. Exceptions raised during the setup that precedes
the `try` block propagate and terminate the process abnormally. -/
theorem pipeline_single_result (cmd : Command) (url file : Option String)
    (output : String) (uenv : UrlEnv) (fenv : FileEnv)
    (hu1 : uenv.torchOk = true) (hu2 : uenv.mkdirOk = true)
    (hf1 : fenv.torchOk = true) (hf2 : fenv.mkdirOk = true) :
    (mainRun cmd url file output uenv fenv).exit = ExitStatus.normal ∧
    (resultLines (mainRun cmd url file output uenv fenv).lines).length = 1 ∧
    ∃ r, (mainRun cmd url file output uenv fenv).lines.getLast? = some r ∧
      r.isResultLine = true := by
  cases cmd
  · cases url with
    | none =>
        simp [mainRun, resultLines, emitResult, OutLine.isResultLine, List.filter]
    | some u => exact processYoutube_result_shape uenv output hu1 hu2
  · cases file with
    | none =>
        simp [mainRun, resultLines, emitResult, OutLine.isResultLine, List.filter]
    | some f => exact processLocalFile_result_shape fenv f output hf1 hf2

/-- Witness for the amended C1 at a concrete URL-mode job whose setup
succeeds. -/
theorem pipeline_single_result_witness :
    happyUrlEnv.torchOk = true ∧ happyUrlEnv.mkdirOk = true ∧
    happyFileEnv.torchOk = true ∧ happyFileEnv.mkdirOk = true ∧
    ((mainRun Command.extract_url (some "https://youtu.be/x") none "/out"
        happyUrlEnv happyFileEnv).exit = ExitStatus.normal ∧
    (resultLines (mainRun Command.extract_url (some "https://youtu.be/x") none
        "/out" happyUrlEnv happyFileEnv).lines).length = 1 ∧
    ∃ r, (mainRun Command.extract_url (some "https://youtu.be/x") none "/out"
        happyUrlEnv happyFileEnv).lines.getLast? = some r ∧
      r.isResultLine = true) :=
  ⟨rfl, rfl, rfl, rfl,
    pipeline_single_result Command.extract_url (some "https://youtu.be/x") none
      "/out" happyUrlEnv happyFileEnv rfl rfl rfl rfl⟩

/-- Claim C3: in both modes, when the separation subprocess returns a
non-zero exit code with stderr text `S`, the job's only result line is a
failure whose error string is exactly `"Demucs error: "` followed by `S`,
and that job moves no file into the `Instrumentals/` or `Acapellas/`
destination folders. -/
theorem demucs_failure_result_and_no_moves (uenv : UrlEnv) (fenv : FileEnv)
    (out f name : String)
    (hu1 : uenv.torchOk = true) (hu2 : uenv.mkdirOk = true)
    (hu3 : uenv.downloadOk = true) (hu4 : uenv.firstTempMp3 = some name)
    (hu5 : uenv.demucsReturncode ≠ 0)
    (hf1 : fenv.torchOk = true) (hf2 : fenv.inputExists = true)
    (hf3 : fenv.mkdirOk = true) (hf4 : fenv.demucsReturncode ≠ 0) :
    resultLines (processYoutube uenv out).lines =
      [emitResult false none none none none
        (some ("Demucs error: " ++ uenv.demucsStderr))] ∧
    (processYoutube uenv out).instrumentalMoves = [] ∧
    (processYoutube uenv out).acapellaMoves = [] ∧
    resultLines (processLocalFile fenv f out).lines =
      [emitResult false none none none none
        (some ("Demucs error: " ++ fenv.demucsStderr))] ∧
    (processLocalFile fenv f out).instrumentalMoves = [] ∧
    (processLocalFile fenv f out).acapellaMoves = [] := by
  rcases uenv with ⟨t, te, m, me, c, mp, dok, derr, it, idur, ftm, rc, ds, iex, vex⟩
  rcases fenv with ⟨t2, te2, ie2, m2, me2, c2, mp2, d2, rc2, ds2, iex2, vex2⟩
  simp only at hu1 hu2 hu3 hu4 hu5 hf1 hf2 hf3 hf4
  subst hu1; subst hu2; subst hu3; subst hu4
  subst hf1; subst hf2; subst hf3
  simp [processYoutube, processLocalFile, hu5, hf4, resultLines, emitResult,
    emitProgress, OutLine.isResultLine, List.filter]

/-- Witness for C3 at concrete runs where demucs exits 1 with stderr
`"CUDA OOM"`. -/
theorem demucs_failure_result_witness :
    demucsFailUrlEnv.torchOk = true ∧ demucsFailUrlEnv.mkdirOk = true ∧
    demucsFailUrlEnv.downloadOk = true ∧
    demucsFailUrlEnv.firstTempMp3 = some "My Song.mp3" ∧
    demucsFailUrlEnv.demucsReturncode ≠ 0 ∧
    demucsFailFileEnv.torchOk = true ∧ demucsFailFileEnv.inputExists = true ∧
    demucsFailFileEnv.mkdirOk = true ∧ demucsFailFileEnv.demucsReturncode ≠ 0 ∧
    (resultLines (processYoutube demucsFailUrlEnv "/out").lines =
      [emitResult false none none none none
        (some ("Demucs error: " ++ demucsFailUrlEnv.demucsStderr))] ∧
    (processYoutube demucsFailUrlEnv "/out").instrumentalMoves = [] ∧
    (processYoutube demucsFailUrlEnv "/out").acapellaMoves = [] ∧
    resultLines (processLocalFile demucsFailFileEnv "/in/song.wav" "/out").lines =
      [emitResult false none none none none
        (some ("Demucs error: " ++ demucsFailFileEnv.demucsStderr))] ∧
    (processLocalFile demucsFailFileEnv "/in/song.wav" "/out").instrumentalMoves = [] ∧
    (processLocalFile demucsFailFileEnv "/in/song.wav" "/out").acapellaMoves = []) :=
  ⟨rfl, rfl, rfl, rfl, by decide, rfl, rfl, rfl, by decide,
    demucs_failure_result_and_no_moves demucsFailUrlEnv demucsFailFileEnv
      "/out" "/in/song.wav" "My Song.mp3" rfl rfl rfl rfl (by decide)
      rfl rfl rfl (by decide)⟩

/-- Claim C6: within any single job every emitted progress value lies in
`[0, 1]` and the emitted sequence is non-decreasing; on the happy path the
URL mode emits exactly the milestones 0.1, 0.3, 0.9, 1.0 in that order and
the file mode exactly 0.1, 0.2, 0.9, 1.0. -/
theorem progress_monotone_bounded_milestones (uenv : UrlEnv) (fenv : FileEnv)
    (out f name : String)
    (hu1 : uenv.torchOk = true) (hu2 : uenv.mkdirOk = true)
    (hu3 : uenv.downloadOk = true) (hu4 : uenv.firstTempMp3 = some name)
    (hu5 : uenv.demucsReturncode = 0) (hu6 : uenv.instrumentalExists = true)
    (hf1 : fenv.torchOk = true) (hf2 : fenv.inputExists = true)
    (hf3 : fenv.mkdirOk = true) (hf4 : fenv.demucsReturncode = 0)
    (hf5 : fenv.instrumentalExists = true) :
    (∀ (e : UrlEnv) (o : String),
      List.Chain' (· ≤ ·) (progressValues (processYoutube e o).lines) ∧
      ∀ p ∈ progressValues (processYoutube e o).lines, 0 ≤ p ∧ p ≤ 1) ∧
    (∀ (e : FileEnv) (fp o : String),
      List.Chain' (· ≤ ·) (progressValues (processLocalFile e fp o).lines) ∧
      ∀ p ∈ progressValues (processLocalFile e fp o).lines, 0 ≤ p ∧ p ≤ 1) ∧
    progressValues (processYoutube uenv out).lines = [1/10, 3/10, 9/10, 1] ∧
    progressValues (processLocalFile fenv f out).lines = [1/10, 2/10, 9/10, 1] := by
  refine ⟨processYoutube_progress, processLocalFile_progress, ?_⟩
  rcases uenv with ⟨t, te, m, me, c, mp, dok, derr, it, idur, ftm, rc, ds, iex, vex⟩
  rcases fenv with ⟨t2, te2, ie2, m2, me2, c2, mp2, d2, rc2, ds2, iex2, vex2⟩
  simp only at hu1 hu2 hu3 hu4 hu5 hu6 hf1 hf2 hf3 hf4 hf5
  subst hu1; subst hu2; subst hu3; subst hu4; subst hu5; subst hu6
  subst hf1; subst hf2; subst hf3; subst hf4; subst hf5
  norm_num [processYoutube, processLocalFile, progressValues, emitResult,
    emitProgress, OutLine.progressValue, List.filterMap_cons]

/-- Witness for C6 at concrete happy-path runs in both modes. -/
theorem progress_monotone_bounded_witness :
    happyUrlEnv.torchOk = true ∧ happyUrlEnv.mkdirOk = true ∧
    happyUrlEnv.downloadOk = true ∧
    happyUrlEnv.firstTempMp3 = some "My Song.mp3" ∧
    happyUrlEnv.demucsReturncode = 0 ∧ happyUrlEnv.instrumentalExists = true ∧
    happyFileEnv.torchOk = true ∧ happyFileEnv.inputExists = true ∧
    happyFileEnv.mkdirOk = true ∧ happyFileEnv.demucsReturncode = 0 ∧
    happyFileEnv.instrumentalExists = true ∧
    ((∀ (e : UrlEnv) (o : String),
      List.Chain' (· ≤ ·) (progressValues (processYoutube e o).lines) ∧
      ∀ p ∈ progressValues (processYoutube e o).lines, 0 ≤ p ∧ p ≤ 1) ∧
    (∀ (e : FileEnv) (fp o : String),
      List.Chain' (· ≤ ·) (progressValues (processLocalFile e fp o).lines) ∧
      ∀ p ∈ progressValues (processLocalFile e fp o).lines, 0 ≤ p ∧ p ≤ 1) ∧
    progressValues (processYoutube happyUrlEnv "/out").lines =
      [1/10, 3/10, 9/10, 1] ∧
    progressValues (processLocalFile happyFileEnv "/in/song.wav" "/out").lines =
      [1/10, 2/10, 9/10, 1]) :=
  ⟨rfl, rfl, rfl, rfl, rfl, rfl, rfl, rfl, rfl, rfl, rfl,
    progress_monotone_bounded_milestones happyUrlEnv happyFileEnv "/out"
      "/in/song.wav" "My Song.mp3" rfl rfl rfl rfl rfl rfl rfl rfl rfl rfl rfl⟩

/-- Every failure result line a URL-mode run emits has all data fields null
and a non-null error. -/
lemma processYoutube_failure_fields (env : UrlEnv) (out : String) (l : OutLine)
    (hl : l ∈ (processYoutube env out).lines)
    (i v t : Option String) (d : Option ℚ) (e : Option String)
    (he : l = OutLine.result false i v t d e) :
    i = none ∧ v = none ∧ t = none ∧ d = none ∧ e ≠ none := by
  subst he
  rcases env with ⟨t1, te, m, me, c, mp, dok, derr, it, idur, ftm, rc, ds, iex, vex⟩
  cases t1 <;> cases m <;> cases dok <;> rcases ftm with _ | name <;>
    by_cases hrc : rc = 0 <;> cases iex <;> cases vex <;>
    simp_all [processYoutube, emitResult, emitProgress]

/-- Every failure result line a file-mode run emits has all data fields
null and a non-null error. -/
lemma processLocalFile_failure_fields (env : FileEnv) (f out : String) (l : OutLine)
    (hl : l ∈ (processLocalFile env f out).lines)
    (i v t : Option String) (d : Option ℚ) (e : Option String)
    (he : l = OutLine.result false i v t d e) :
    i = none ∧ v = none ∧ t = none ∧ d = none ∧ e ≠ none := by
  subst he
  rcases env with ⟨t2, te2, ie2, m2, me2, c2, mp2, d2, rc2, ds2, iex2, vex2⟩
  cases t2 <;> cases ie2 <;> cases m2 <;> by_cases hrc2 : rc2 = 0 <;>
    cases iex2 <;> cases vex2 <;>
    simp_all [processLocalFile, emitResult, emitProgress]

/-- Claim C7: every failure result (`success = false`) emitted by any job
has `instrumentalPath`, `vocalsPath`, `title` and `duration` all null and a
non-null `error`. -/
theorem failure_result_fields (cmd : Command) (url file : Option String)
    (output : String) (uenv : UrlEnv) (fenv : FileEnv)
    (l : OutLine) (hl : l ∈ (mainRun cmd url file output uenv fenv).lines)
    (i v t : Option String) (d : Option ℚ) (e : Option String)
    (he : l = OutLine.result false i v t d e) :
    i = none ∧ v = none ∧ t = none ∧ d = none ∧ e ≠ none := by
  cases cmd
  · cases url with
    | none =>
        subst he
        simp_all [mainRun, emitResult]
    | some u => exact processYoutube_failure_fields uenv output l hl i v t d e he
  · cases file with
    | none =>
        subst he
        simp_all [mainRun, emitResult]
    | some f => exact processLocalFile_failure_fields fenv f output l hl i v t d e he

/-- Witness for C7 at the concrete failure result of a job invoked with
`extract_url` and no `--url`. -/
theorem failure_result_fields_witness :
    OutLine.result false none none none none (some "URL is required") ∈
      (mainRun Command.extract_url none none "/out" happyUrlEnv happyFileEnv).lines ∧
    ((none : Option String) = none ∧ (none : Option String) = none ∧
     (none : Option String) = none ∧ (none : Option ℚ) = none ∧
     (some "URL is required" : Option String) ≠ none) :=
  ⟨by decide,
    failure_result_fields Command.extract_url none none "/out" happyUrlEnv
      happyFileEnv (OutLine.result false none none none none (some "URL is required"))
      (by decide) none none none none (some "URL is required") rfl⟩

/-- Claim C10: the destination folders `Instrumentals/` and `Acapellas/`
(and in URL mode also `temp/`) are created under the output root before
the pipeline's `try` block begins, so any job whose torch import and
directory creation succeed leaves these folders in existence even when a
later stage fails — the conclusion holds for every outcome of the
download, the separator and the output-file probes. -/
theorem dest_dirs_created_before_try (uenv : UrlEnv) (fenv : FileEnv)
    (out f : String)
    (hu1 : uenv.torchOk = true) (hu2 : uenv.mkdirOk = true)
    (hf1 : fenv.torchOk = true) (hf2 : fenv.inputExists = true)
    (hf3 : fenv.mkdirOk = true) :
    ((out ++ "/temp") ∈ (processYoutube uenv out).createdDirs ∧
     (out ++ "/Instrumentals") ∈ (processYoutube uenv out).createdDirs ∧
     (out ++ "/Acapellas") ∈ (processYoutube uenv out).createdDirs) ∧
    ((out ++ "/Instrumentals") ∈ (processLocalFile fenv f out).createdDirs ∧
     (out ++ "/Acapellas") ∈ (processLocalFile fenv f out).createdDirs) := by
  rcases uenv with ⟨t, te, m, me, c, mp, dok, derr, it, idur, ftm, rc, ds, iex, vex⟩
  rcases fenv with ⟨t2, te2, ie2, m2, me2, c2, mp2, d2, rc2, ds2, iex2, vex2⟩
  simp only at hu1 hu2 hf1 hf2 hf3
  subst hu1; subst hu2; subst hf1; subst hf2; subst hf3
  cases dok <;> rcases ftm with _ | name <;> by_cases hrc : rc = 0 <;>
    cases iex <;> cases vex <;> by_cases hrc2 : rc2 = 0 <;>
    cases iex2 <;> cases vex2 <;>
    simp [processYoutube, processLocalFile, hrc, hrc2]

/-- Witness for C10 at concrete runs that fail at the separation stage:
the destination folders were still created. -/
theorem dest_dirs_created_witness :
    demucsFailUrlEnv.torchOk = true ∧ demucsFailUrlEnv.mkdirOk = true ∧
    demucsFailFileEnv.torchOk = true ∧ demucsFailFileEnv.inputExists = true ∧
    demucsFailFileEnv.mkdirOk = true ∧
    ((("/out" ++ "/temp") ∈ (processYoutube demucsFailUrlEnv "/out").createdDirs ∧
     ("/out" ++ "/Instrumentals") ∈ (processYoutube demucsFailUrlEnv "/out").createdDirs ∧
     ("/out" ++ "/Acapellas") ∈ (processYoutube demucsFailUrlEnv "/out").createdDirs) ∧
    (("/out" ++ "/Instrumentals") ∈
        (processLocalFile demucsFailFileEnv "/in/song.wav" "/out").createdDirs ∧
     ("/out" ++ "/Acapellas") ∈
        (processLocalFile demucsFailFileEnv "/in/song.wav" "/out").createdDirs)) :=
  ⟨rfl, rfl, rfl, rfl, rfl,
    dest_dirs_created_before_try demucsFailUrlEnv demucsFailFileEnv "/out"
      "/in/song.wav" rfl rfl rfl rfl rfl⟩

end Mixor
